import Mathlib

/- Shallow embedding of the SeiAgentGuard core risk-evaluation pipeline
   (packages/core/src): the threat detector, the security cache key
   construction, the policy engine, the per-agent rate counter and the
   orchestrator analyzeRequest.

   Modelling conventions: JavaScript numbers are rationals, JavaScript
   strings are Lean strings, the Redis-backed result cache is an
   association list keyed by the generated cache key, and the module-level
   requestCounts map is a function from agent ids to optional entries.
   Wall-clock durations (processingTime, evaluationTime) are omitted: they
   are time measurements with no influence on any decision field. -/

/- Helpers mirroring the JavaScript string builtins used by the source
   (toLowerCase, trim, includes, split on a whitespace run). -/

def jsToLower (s : String) : String := String.mk (s.data.map Char.toLower)

def jsTrim (s : String) : String :=
  String.mk (((s.data.dropWhile Char.isWhitespace).reverse.dropWhile Char.isWhitespace).reverse)

def containsSub (pat : List Char) : List Char → Bool
  | [] => pat.isEmpty
  | c :: t => pat.isPrefixOf (c :: t) || containsSub pat t

/- strIncludes s pat is true when pat occurs as a contiguous substring of s,
   as the JavaScript expression s.includes(pat). -/
def strIncludes (s pat : String) : Bool := containsSub pat.data s.data

/- jsSplitWs models s.split on a whitespace-run regular expression: pieces
   between maximal whitespace runs, keeping a boundary empty piece when the
   string starts or ends with whitespace, and one empty piece for the empty
   string. -/
def jsSplitWs (s : String) : List String :=
  if s.data.isEmpty then [""]
  else
    let toks := (s.data.splitOnP Char.isWhitespace).filter (fun w => !w.isEmpty)
    let lead : List (List Char) :=
      match s.data.head? with
      | some c => if c.isWhitespace then [[]] else []
      | none => []
    let trail : List (List Char) :=
      match s.data.getLast? with
      | some c => if c.isWhitespace then [[]] else []
      | none => []
    (lead ++ toks ++ trail).map String.mk

/- ===== ThreatDetector (packages/core/src/detector.ts) ===== -/

structure ThreatResult where
  threatProbability : ℚ
  confidence : ℚ
  detectedPatterns : List String
  cached : Bool
deriving DecidableEq

def maliciousPatterns : List String :=
  ["ignore previous instructions",
   "system prompt override",
   "reveal your instructions",
   "forget everything above",
   "disregard all previous",
   "pretend you are",
   "act as if",
   "you are now",
   "from now on you",
   "ignore the above"]

/- The pattern-matching loop of detectThreats: the matched phrases in list
   order; each match contributes 0.4 to the accumulating score. -/
def detectedPatternsOf (lowerPrompt : String) : List String :=
  maliciousPatterns.filter (fun pattern => strIncludes lowerPrompt pattern)

/- The additional additive heuristics of detectThreats. -/
def heuristicScore (prompt lowerPrompt : String) : ℚ :=
  (if strIncludes lowerPrompt "ignore" then 0.2 else 0) +
  (if strIncludes lowerPrompt "override" then 0.2 else 0) +
  (if strIncludes lowerPrompt "[system]" then 0.3 else 0) +
  (if strIncludes lowerPrompt "[admin]" then 0.3 else 0) +
  (if strIncludes lowerPrompt "roleplay" then 0.1 else 0) +
  (if 1000 < prompt.length then 0.1 else 0) +
  (let words := jsSplitWs (jsToLower prompt)
   if 20 < words.length ∧ ((words.dedup.length : ℚ) / (words.length : ℚ)) < 0.3
   then 0.2 else 0)

/- The accumulated threatProbability before the final clamp. -/
def rawThreatScore (prompt : String) : ℚ :=
  0.4 * ((detectedPatternsOf (jsToLower prompt)).length : ℚ) +
    heuristicScore prompt (jsToLower prompt)

/- detectThreats: fresh (uncached) detection. The confidence bonus tests the
   score before the clamp, as the source does. -/
def detectThreats (prompt : String) : ThreatResult :=
  { threatProbability := min (rawThreatScore prompt) 1,
    confidence :=
      min (0.6 +
        (if 0 < (detectedPatternsOf (jsToLower prompt)).length then 0.3 else 0) +
        (if 0.5 < rawThreatScore prompt then 0.1 else 0)) 1,
    detectedPatterns := detectedPatternsOf (jsToLower prompt),
    cached := false }

/- ===== SecurityCache (packages/core/src/cache.ts) ===== -/

def generateKey (agentId promptHash : String) : String :=
  "security:" ++ agentId ++ ":" ++ promptHash

/- The reliable-cache model (no expiry, no connection failure): an
   association list from keys to stored threat results. -/
abbrev CacheState := List (String × ThreatResult)

def cacheGet (st : CacheState) (key : String) : Option ThreatResult :=
  (st.find? (fun e => e.1 == key)).map (fun e => e.2)

def cacheSet (st : CacheState) (key : String) (v : ThreatResult) : CacheState :=
  (key, v) :: st

/- ThreatDetector.analyze. hashPrompt (sha256 hex digest truncated to 16
   characters in the source) is an external crypto builtin, passed here as
   an arbitrary deterministic function parameter. -/
def analyze (hashPrompt : String → String) (st : CacheState)
    (prompt agentId : String) : ThreatResult × CacheState :=
  let cacheKey := generateKey agentId (hashPrompt prompt)
  match cacheGet st cacheKey with
  | some cachedResult => ({ cachedResult with cached := true }, st)
  | none =>
    let finalResult := detectThreats prompt
    (finalResult, cacheSet st cacheKey finalResult)

/- ===== Policy model (packages/core/src/policy/types.ts) ===== -/

inductive ConditionType
  | pattern_match
  | risk_score
  | agent_history
  | request_frequency
deriving DecidableEq

inductive ConditionOperator
  | equals
  | contains
  | greater_than
  | less_than
  | in_range
deriving DecidableEq

/- In the source a condition value is untyped YAML data; the policy
   validator accepts numbers and lists of strings in the positions the
   engine reads, so the model carries a tagged union of the two. -/
inductive CondValue
  | num (v : ℚ)
  | strList (l : List String)
deriving DecidableEq

structure PolicyCondition where
  type : ConditionType
  operator : ConditionOperator
  value : CondValue
deriving DecidableEq

inductive ActionType
  | allow
  | block
  | warn
  | modify
deriving DecidableEq

structure PolicyAction where
  type : ActionType
  message : Option String
deriving DecidableEq

inductive Severity
  | low
  | medium
  | high
  | critical
deriving DecidableEq

structure SecurityPolicy where
  name : String
  description : String
  enabled : Bool
  severity : Severity
  priority : ℚ
  conditions : List PolicyCondition
  actions : List PolicyAction
deriving DecidableEq

structure PolicyContext where
  agentId : String
  prompt : String
  riskScore : ℚ
  detectedPatterns : List String
  requestCount : ℕ
  timestamp : ℕ

structure PolicyEvaluationResult where
  matched : Bool
  policy : SecurityPolicy
  confidence : ℚ
  recommendedAction : PolicyAction
  matchedConditions : List PolicyCondition
deriving DecidableEq

/- ===== PolicyValidator (packages/core/src/policy/PolicyValidator.ts) =====
   Checks that are purely about dynamic types in the source (enum
   membership, boolean flags, string-typed fields, non-null values) hold by
   construction in the typed model; the remaining checks are kept. -/

def validateCondition (c : PolicyCondition) : Bool :=
  match c.type, c.value with
  | ConditionType.risk_score, CondValue.num _ => true
  | ConditionType.risk_score, _ => false
  | ConditionType.request_frequency, CondValue.num _ => true
  | ConditionType.request_frequency, _ => false
  | _, _ => true

def validatePolicy (p : SecurityPolicy) : Bool :=
  !(p.name == "") && !(p.description == "") && decide (1 ≤ p.priority) &&
    !p.conditions.isEmpty && p.conditions.all validateCondition &&
    !p.actions.isEmpty

def validatePolicies (ps : List SecurityPolicy) : Bool :=
  ps.all validatePolicy

/- ===== PolicyEngine (packages/core/src/policy/PolicyEngine.ts) ===== -/

/- The built-in fallback rule set of loadDefaultPolicies. -/
def basicSecurityPolicy : SecurityPolicy :=
  { name := "basic_security",
    description := "Basic security policy",
    enabled := true,
    severity := Severity.medium,
    priority := 1,
    conditions :=
      [{ type := ConditionType.risk_score,
         operator := ConditionOperator.greater_than,
         value := CondValue.num 0.7 }],
    actions := [{ type := ActionType.block, message := some "High risk content detected" }] }

def defaultPolicies : List SecurityPolicy := [basicSecurityPolicy]

/- The three outcomes of reading and parsing the policy YAML file: the read
   or parse threw, the parsed data is not an object with a policies array,
   or an array of policy records was obtained. -/
inductive PolicySource
  | readError
  | badFormat
  | policiesArr (ps : List SecurityPolicy)

/- loadPolicies: on a valid source keep the enabled policies sorted
   ascending by priority; every failure path falls back to the built-in
   rule set and never throws. -/
def loadPolicies : PolicySource → List SecurityPolicy
  | PolicySource.readError => defaultPolicies
  | PolicySource.badFormat => defaultPolicies
  | PolicySource.policiesArr ps =>
    if validatePolicies ps then
      (ps.filter (fun policy => policy.enabled)).mergeSort
        (fun a b => a.priority ≤ b.priority)
    else defaultPolicies

def loadFails : PolicySource → Bool
  | PolicySource.readError => true
  | PolicySource.badFormat => true
  | PolicySource.policiesArr ps => !validatePolicies ps

def evaluatePatternMatch (condition : PolicyCondition) (prompt : String) : Bool :=
  match condition.operator, condition.value with
  | ConditionOperator.contains, CondValue.strList pats =>
    pats.any (fun pattern => strIncludes (jsToLower prompt) (jsToLower pattern))
  | _, _ => false

def evaluateRiskScore (condition : PolicyCondition) (riskScore : ℚ) : Bool :=
  match condition.operator, condition.value with
  | ConditionOperator.greater_than, CondValue.num v => v < riskScore
  | ConditionOperator.less_than, CondValue.num v => riskScore < v
  | ConditionOperator.equals, CondValue.num v => |riskScore - v| < 0.01
  | _, _ => false

def evaluateRequestFrequency (condition : PolicyCondition) (requestCount : ℕ) : Bool :=
  match condition.operator, condition.value with
  | ConditionOperator.greater_than, CondValue.num v => v < (requestCount : ℚ)
  | ConditionOperator.less_than, CondValue.num v => (requestCount : ℚ) < v
  | _, _ => false

def evaluateCondition (condition : PolicyCondition) (context : PolicyContext) : Bool :=
  match condition.type with
  | ConditionType.pattern_match => evaluatePatternMatch condition context.prompt
  | ConditionType.risk_score => evaluateRiskScore condition context.riskScore
  | ConditionType.request_frequency => evaluateRequestFrequency condition context.requestCount
  | ConditionType.agent_history => false

/- The short-circuit conjunction over the conditions of one policy. -/
def policyMatches (policy : SecurityPolicy) (context : PolicyContext) : Bool :=
  policy.conditions.all (fun condition => evaluateCondition condition context)

def calculateConfidence (matchedConditions : List PolicyCondition)
    (context : PolicyContext) : ℚ :=
  min (0.5 + min (0.2 * (matchedConditions.length : ℚ)) 0.4 +
    (if 0.8 < context.riskScore then 0.2
     else if 0.5 < context.riskScore then 0.1 else 0) +
    (if !context.detectedPatterns.isEmpty then 0.1 else 0)) 1

/- evaluatePolicy: on a full match all conditions are collected and the
   first listed action is the recommended one (actions are validated
   non-empty; an out-of-range index is modelled by the default allow). -/
def evaluatePolicy (policy : SecurityPolicy) (context : PolicyContext) :
    PolicyEvaluationResult :=
  if policyMatches policy context then
    { matched := true,
      policy := policy,
      confidence := calculateConfidence policy.conditions context,
      recommendedAction := policy.actions.headD { type := ActionType.allow, message := none },
      matchedConditions := policy.conditions }
  else
    { matched := false,
      policy := policy,
      confidence := 0,
      recommendedAction := { type := ActionType.allow, message := none },
      matchedConditions := [] }

/- evaluatePolicies: evaluate the loaded policies in list order, keep the
   matches, then sort the result descending by priority (stable, like the
   JavaScript sort with comparator b.priority - a.priority). -/
def evaluatePolicies (policies : List SecurityPolicy) (context : PolicyContext) :
    List PolicyEvaluationResult :=
  ((policies.map (fun policy => evaluatePolicy policy context)).filter
      (fun result => result.matched)).mergeSort
    (fun a b => b.policy.priority ≤ a.policy.priority)

/- ===== Orchestrator (packages/core/src/index.ts) ===== -/

structure AgentRequest where
  agentId : String
  prompt : String
  timestamp : ℕ

/- The evidence map of a SecurityResponse; every key the source ever puts
   there, each optional because each code path populates a different set. -/
structure Evidence where
  promptLength : Option ℕ := none
  suspiciousPatterns : Option (List String) := none
  confidence : Option ℚ := none
  cached : Option Bool := none
  policiesMatched : Option ℕ := none
  error : Option String := none
deriving DecidableEq

structure SecurityResponse where
  action : ActionType
  reason : String
  riskScore : ℚ
  evidence : Evidence
deriving DecidableEq

structure RateEntry where
  count : ℕ
  resetTime : ℕ
deriving DecidableEq

/- The module-level requestCounts map. -/
abbrev RateState := String → Option RateEntry

def rateSet (st : RateState) (agentId : String) (v : RateEntry) : RateState :=
  fun x => if x == agentId then some v else st x

/- getRequestCount: create or reset the hourly window entry, otherwise
   increment in place; now is the Date.now() reading in epoch ms. -/
def getRequestCount (now : ℕ) (st : RateState) (agentId : String) : ℕ × RateState :=
  match st agentId with
  | none => (1, rateSet st agentId { count := 1, resetTime := now + 3600000 })
  | some agentData =>
    if agentData.resetTime < now then
      (1, rateSet st agentId { count := 1, resetTime := now + 3600000 })
    else
      (agentData.count + 1,
       rateSet st agentId { count := agentData.count + 1, resetTime := agentData.resetTime })

/- Steps 2 to 6 of analyzeRequest: the body of the try block after the
   empty-prompt validation. -/
def analyzeCore (hashPrompt : String → String) (policies : List SecurityPolicy)
    (cacheSt : CacheState) (rateSt : RateState) (now : ℕ)
    (request : AgentRequest) : SecurityResponse × CacheState × RateState :=
  let rc := getRequestCount now rateSt request.agentId
  let requestCount := rc.1
  let ar := analyze hashPrompt cacheSt request.prompt request.agentId
  let threatResult := ar.1
  let policyContext : PolicyContext :=
    { agentId := request.agentId,
      prompt := request.prompt,
      riskScore := threatResult.threatProbability,
      detectedPatterns := threatResult.detectedPatterns,
      requestCount := requestCount,
      timestamp := request.timestamp }
  let policyResults := evaluatePolicies policies policyContext
  let base : ActionType × String :=
    match policyResults with
    | topPolicy :: _ =>
      (topPolicy.recommendedAction.type,
       match topPolicy.recommendedAction.message with
       | some m =>
         if m = "" then "Policy " ++ topPolicy.policy.name ++ " triggered" else m
       | none => "Policy " ++ topPolicy.policy.name ++ " triggered")
    | [] =>
      if 0.7 < threatResult.threatProbability then
        (ActionType.block, "High risk content detected")
      else if 0.3 < threatResult.threatProbability then
        (ActionType.warn, "Moderate risk content detected")
      else (ActionType.allow, "Request appears safe")
  let action := if 100 < requestCount then ActionType.block else base.1
  let reason := if 100 < requestCount then "Rate limit exceeded" else base.2
  ({ action := action,
     reason := reason,
     riskScore := threatResult.threatProbability,
     evidence :=
       { promptLength := some request.prompt.length,
         suspiciousPatterns := some threatResult.detectedPatterns,
         confidence := some threatResult.confidence,
         cached := some threatResult.cached,
         policiesMatched := some policyResults.length,
         error := none } },
   ar.2, rc.2)

/- The catch handler of analyzeRequest. -/
def failureResponse (e : String) : SecurityResponse :=
  { action := ActionType.block,
    reason := "Security analysis failed",
    riskScore := 1,
    evidence := { error := some e } }

/- The try-catch wrapper: the try body is a computation that either returns
   or throws; a thrown error is converted to the fail-closed response and
   the shared state is left as the caller saw it. -/
def runGuarded (attempt : Except String (SecurityResponse × CacheState × RateState))
    (cacheSt : CacheState) (rateSt : RateState) :
    SecurityResponse × CacheState × RateState :=
  match attempt with
  | Except.ok r => r
  | Except.error e => (failureResponse e, cacheSt, rateSt)

/- The response of the empty-prompt validation path. -/
def emptyPromptResponse : SecurityResponse :=
  { action := ActionType.block,
    reason := "Empty prompt not allowed",
    riskScore := 1,
    evidence := { promptLength := some 0, suspiciousPatterns := some [] } }

/- analyzeRequest: validate, then run the pipeline under the catch
   wrapper. In the pure model the pipeline itself never throws, so the
   normal path wraps it in Except.ok. -/
def analyzeRequest (hashPrompt : String → String) (policies : List SecurityPolicy)
    (cacheSt : CacheState) (rateSt : RateState) (now : ℕ)
    (request : AgentRequest) : SecurityResponse × CacheState × RateState :=
  if request.prompt = "" ∨ (jsTrim request.prompt).length = 0 then
    (emptyPromptResponse, cacheSt, rateSt)
  else
    runGuarded (Except.ok (analyzeCore hashPrompt policies cacheSt rateSt now request))
      cacheSt rateSt

/- ===== Sample values used by concrete instantiations ===== -/

def sampleHash : String → String := fun _ => "0123456789abcdef"

def emptyRateState : RateState := fun _ => none

def nearLimitRateState : RateState :=
  fun a => if a == "agent-1" then some { count := 100, resetTime := 5000 } else none

def expiredRateState : RateState :=
  fun a => if a == "agent-1" then some { count := 77, resetTime := 5 } else none

def wsOnlyRequest : AgentRequest :=
  { agentId := "agent-1", prompt := "   ", timestamp := 0 }

def helloRequest : AgentRequest :=
  { agentId := "agent-1", prompt := "hello", timestamp := 0 }

def samplePolicyA : SecurityPolicy :=
  { name := "low-rule",
    description := "low priority rule",
    enabled := true,
    severity := Severity.low,
    priority := 1,
    conditions :=
      [{ type := ConditionType.risk_score,
         operator := ConditionOperator.less_than,
         value := CondValue.num 2 }],
    actions := [{ type := ActionType.warn, message := some "warn low" }] }

def samplePolicyB : SecurityPolicy :=
  { name := "high-rule",
    description := "high priority rule",
    enabled := true,
    severity := Severity.high,
    priority := 2,
    conditions :=
      [{ type := ConditionType.risk_score,
         operator := ConditionOperator.less_than,
         value := CondValue.num 2 }],
    actions := [{ type := ActionType.block, message := some "block high" }] }

def sampleContext : PolicyContext :=
  { agentId := "agent-1",
    prompt := "hello",
    riskScore := 0,
    detectedPatterns := [],
    requestCount := 1,
    timestamp := 0 }

/- ===== Theorems ===== -/

/-- C1: for every request whose prompt is empty or all-whitespace,
analyzeRequest returns the fixed blocked verdict (action block, riskScore
1.0, reason Empty prompt not allowed) and leaves the cache, the rate
counters and every other piece of shared state untouched: neither the
threat scorer nor the policy engine is invoked. -/
theorem analyzeRequest_empty_prompt_blocks (hashPrompt : String → String)
    (policies : List SecurityPolicy) (cacheSt : CacheState) (rateSt : RateState)
    (now : ℕ) (request : AgentRequest)
    (h : (jsTrim request.prompt).length = 0) :
    analyzeRequest hashPrompt policies cacheSt rateSt now request =
      (emptyPromptResponse, cacheSt, rateSt) ∧
    emptyPromptResponse.action = ActionType.block ∧
    emptyPromptResponse.riskScore = 1 ∧
    emptyPromptResponse.reason = "Empty prompt not allowed" := by
  refine ⟨?_, rfl, rfl, rfl⟩
  unfold analyzeRequest
  rw [if_pos (Or.inr h)]

/-- Witness for C1 at the three-space prompt. -/
theorem analyzeRequest_empty_prompt_blocks_witness :
    (jsTrim wsOnlyRequest.prompt).length = 0 ∧
    analyzeRequest sampleHash [] [] emptyRateState 0 wsOnlyRequest =
      (emptyPromptResponse, [], emptyRateState) :=
  ⟨by decide,
   (analyzeRequest_empty_prompt_blocks sampleHash [] [] emptyRateState 0
      wsOnlyRequest (by decide)).1⟩

/-- C2: for every request that passes prompt validation, whenever the
post-increment hourly counter of the requesting agent exceeds 100, the
final verdict is action block with reason Rate limit exceeded, whatever
the threat score, the cache contents and the matched policies were. -/
theorem analyzeRequest_rate_limit_blocks (hashPrompt : String → String)
    (policies : List SecurityPolicy) (cacheSt : CacheState) (rateSt : RateState)
    (now : ℕ) (request : AgentRequest)
    (hp : ¬(request.prompt = "" ∨ (jsTrim request.prompt).length = 0))
    (hc : 100 < (getRequestCount now rateSt request.agentId).1) :
    (analyzeRequest hashPrompt policies cacheSt rateSt now request).1.action =
      ActionType.block ∧
    (analyzeRequest hashPrompt policies cacheSt rateSt now request).1.reason =
      "Rate limit exceeded" := by
  unfold analyzeRequest
  rw [if_neg hp]
  unfold runGuarded analyzeCore
  constructor <;> simp [hc]

/-- Witness for C2: the 101st request of the hourly window of agent-1 is
blocked with the rate-limit reason. -/
theorem analyzeRequest_rate_limit_blocks_witness :
    ¬(helloRequest.prompt = "" ∨ (jsTrim helloRequest.prompt).length = 0) ∧
    100 < (getRequestCount 1000 nearLimitRateState helloRequest.agentId).1 ∧
    (analyzeRequest sampleHash [] [] nearLimitRateState 1000 helloRequest).1.action =
      ActionType.block ∧
    (analyzeRequest sampleHash [] [] nearLimitRateState 1000 helloRequest).1.reason =
      "Rate limit exceeded" :=
  ⟨by decide, by decide,
   (analyzeRequest_rate_limit_blocks sampleHash [] [] nearLimitRateState 1000
      helloRequest (by decide) (by decide)).1,
   (analyzeRequest_rate_limit_blocks sampleHash [] [] nearLimitRateState 1000
      helloRequest (by decide) (by decide)).2⟩

/-- C7: a thrown error anywhere in the guarded evaluation steps is caught
and converted to the fail-closed response: action block, riskScore 1.0,
reason Security analysis failed; the caller always receives a well-formed
response, never an exception. -/
theorem analyzeRequest_fail_closed (e : String) (cacheSt : CacheState)
    (rateSt : RateState) :
    runGuarded (Except.error e) cacheSt rateSt = (failureResponse e, cacheSt, rateSt) ∧
    (failureResponse e).action = ActionType.block ∧
    (failureResponse e).riskScore = 1 ∧
    (failureResponse e).reason = "Security analysis failed" :=
  ⟨rfl, rfl, rfl, rfl⟩

/-- C8: every failing load path of the policy engine (read error, bad
format, failed validation) installs exactly the single built-in policy,
whose lone condition is risk_score greater_than 0.7 and whose action is
block; loadPolicies is a total function, so loading never throws. -/
theorem loadPolicies_fallback (src : PolicySource) (h : loadFails src = true) :
    loadPolicies src = [basicSecurityPolicy] ∧
    basicSecurityPolicy.conditions =
      [{ type := ConditionType.risk_score,
         operator := ConditionOperator.greater_than,
         value := CondValue.num 0.7 }] ∧
    basicSecurityPolicy.actions =
      [{ type := ActionType.block, message := some "High risk content detected" }] := by
  refine ⟨?_, rfl, rfl⟩
  cases src with
  | readError => rfl
  | badFormat => rfl
  | policiesArr ps =>
    have hv : validatePolicies ps = false := by
      simpa [loadFails] using h
    simp [loadPolicies, hv, defaultPolicies]

/-- Witness for C8 at the read-error source. -/
theorem loadPolicies_fallback_witness :
    loadFails PolicySource.readError = true ∧
    loadPolicies PolicySource.readError = [basicSecurityPolicy] :=
  ⟨rfl, (loadPolicies_fallback PolicySource.readError rfl).1⟩

/-- C9: for 16-character prompt fingerprints the cache key construction is
injective: two generated keys are equal exactly when both the agent ids
and the fingerprints are equal, even when an agent id itself contains
colon characters. -/
theorem generateKey_injective (a₁ h₁ a₂ h₂ : String)
    (hl₁ : h₁.length = 16) (hl₂ : h₂.length = 16) :
    generateKey a₁ h₁ = generateKey a₂ h₂ ↔ (a₁ = a₂ ∧ h₁ = h₂) := by
  constructor
  · intro heq
    have hdata : (("security:".data ++ a₁.data) ++ ":".data) ++ h₁.data =
        (("security:".data ++ a₂.data) ++ ":".data) ++ h₂.data := by
      have hd := congrArg String.data heq
      simpa [generateKey, String.data_append] using hd
    have hlen : h₁.data.length = h₂.data.length := by
      have e₁ : h₁.data.length = 16 := hl₁
      have e₂ : h₂.data.length = 16 := hl₂
      rw [e₁, e₂]
    obtain ⟨hpre, hsuf⟩ := List.append_inj' hdata hlen
    have hmid : a₁.data ++ ":".data = a₂.data ++ ":".data := by
      rw [List.append_assoc, List.append_assoc] at hpre
      exact List.append_cancel_left hpre
    obtain ⟨ha, -⟩ := List.append_inj' hmid rfl
    exact ⟨String.ext ha, String.ext hsuf⟩
  · rintro ⟨rfl, rfl⟩
    rfl

/-- Witness for C9: equal inputs with a colon-bearing agent id and a
16-character fingerprint give equal keys, via the proved equivalence. -/
theorem generateKey_injective_witness :
    ("0123456789abcdef" : String).length = 16 ∧
    (generateKey "x:y" "0123456789abcdef" = generateKey "x:y" "0123456789abcdef" ↔
      (("x:y" : String) = "x:y" ∧ ("0123456789abcdef" : String) = "0123456789abcdef")) :=
  ⟨rfl, generateKey_injective "x:y" "0123456789abcdef" "x:y" "0123456789abcdef" rfl rfl⟩

/-- C10: the per-agent counter value is always at least 1, and the first
request arriving strictly after the stored resetTime restarts the window:
it returns exactly 1 and stores a fresh entry whose window ends one hour
(3600000 ms) later, so a previously rate-limited agent is not rate-limited
by the first request of the next window. -/
theorem getRequestCount_floor_and_reset (now : ℕ) (st : RateState) (agentId : String) :
    1 ≤ (getRequestCount now st agentId).1 ∧
    (∀ en : RateEntry, st agentId = some en → en.resetTime < now →
      (getRequestCount now st agentId).1 = 1 ∧
      (getRequestCount now st agentId).2 agentId =
        some { count := 1, resetTime := now + 3600000 }) := by
  constructor
  · unfold getRequestCount
    cases h : st agentId with
    | none => simp
    | some agentData =>
      by_cases hr : agentData.resetTime < now
      · simp [hr]
      · simp [hr]
  · intro en hen hlt
    unfold getRequestCount
    rw [hen]
    simp [hlt, rateSet]

/-- Witness for C10: agent-1 had 77 requests in a window that ended at
time 5; at time 10 the counter restarts at 1 with a window ending at
3600010. -/
theorem getRequestCount_floor_and_reset_witness :
    1 ≤ (getRequestCount 10 expiredRateState "agent-1").1 ∧
    expiredRateState "agent-1" = some { count := 77, resetTime := 5 } ∧
    (getRequestCount 10 expiredRateState "agent-1").1 = 1 ∧
    (getRequestCount 10 expiredRateState "agent-1").2 "agent-1" =
      some { count := 1, resetTime := 3600010 } :=
  ⟨(getRequestCount_floor_and_reset 10 expiredRateState "agent-1").1,
   by decide,
   ((getRequestCount_floor_and_reset 10 expiredRateState "agent-1").2
      { count := 77, resetTime := 5 } (by decide) (by decide)).1,
   ((getRequestCount_floor_and_reset 10 expiredRateState "agent-1").2
      { count := 77, resetTime := 5 } (by decide) (by decide)).2⟩

/-- A guard that adds a nonnegative bonus or nothing is nonnegative. -/
theorem ite_term_nonneg {c : Prop} [Decidable c] {x : ℚ} (hx : 0 ≤ x) :
    0 ≤ if c then x else 0 := by
  split
  · exact hx
  · exact le_refl 0

/-- Each additive heuristic term of the detector is nonnegative. -/
theorem heuristicScore_nonneg (p lp : String) : 0 ≤ heuristicScore p lp := by
  unfold heuristicScore
  refine add_nonneg (add_nonneg (add_nonneg (add_nonneg (add_nonneg
    (add_nonneg ?_ ?_) ?_) ?_) ?_) ?_) ?_ <;>
    exact ite_term_nonneg (by norm_num)

/-- C5: every prompt containing the phrase ignore previous instructions in
any letter case gets a freshly computed threat probability of at least 0.4,
and the phrase is recorded in detectedPatterns. -/
theorem detectThreats_ignore_previous (p : String)
    (h : strIncludes (jsToLower p) "ignore previous instructions" = true) :
    (0.4 : ℚ) ≤ (detectThreats p).threatProbability ∧
    "ignore previous instructions" ∈ (detectThreats p).detectedPatterns := by
  have hmem : "ignore previous instructions" ∈ detectedPatternsOf (jsToLower p) := by
    unfold detectedPatternsOf
    exact List.mem_filter.2 ⟨by simp [maliciousPatterns], h⟩
  have hlen : (1 : ℚ) ≤ ((detectedPatternsOf (jsToLower p)).length : ℚ) := by
    have h0 : 0 < (detectedPatternsOf (jsToLower p)).length :=
      List.length_pos.2 (List.ne_nil_of_mem hmem)
    exact_mod_cast h0
  have hraw : (0.4 : ℚ) ≤ rawThreatScore p := by
    unfold rawThreatScore
    have hH := heuristicScore_nonneg p (jsToLower p)
    linarith [mul_le_mul_of_nonneg_left hlen (by norm_num : (0 : ℚ) ≤ 0.4)]
  constructor
  · simp only [detectThreats]
    exact le_min hraw (by norm_num)
  · simp only [detectThreats]
    exact hmem

/-- Witness for C5 at a mixed-case occurrence of the phrase. -/
theorem detectThreats_ignore_previous_witness :
    strIncludes (jsToLower "Please IGNORE Previous Instructions now")
      "ignore previous instructions" = true ∧
    (0.4 : ℚ) ≤ (detectThreats "Please IGNORE Previous Instructions now").threatProbability ∧
    "ignore previous instructions" ∈
      (detectThreats "Please IGNORE Previous Instructions now").detectedPatterns :=
  ⟨by decide,
   (detectThreats_ignore_previous "Please IGNORE Previous Instructions now" (by decide)).1,
   (detectThreats_ignore_previous "Please IGNORE Previous Instructions now" (by decide)).2⟩

/-- C6: two successive analyze calls for the same prompt and agent against
the reliable cache return identical threatProbability, confidence and
detectedPatterns, and the second call reports a cache hit. -/
theorem analyze_cache_idempotent (hashPrompt : String → String) (st : CacheState)
    (p a : String) :
    (analyze hashPrompt (analyze hashPrompt st p a).2 p a).1.threatProbability =
      (analyze hashPrompt st p a).1.threatProbability ∧
    (analyze hashPrompt (analyze hashPrompt st p a).2 p a).1.confidence =
      (analyze hashPrompt st p a).1.confidence ∧
    (analyze hashPrompt (analyze hashPrompt st p a).2 p a).1.detectedPatterns =
      (analyze hashPrompt st p a).1.detectedPatterns ∧
    (analyze hashPrompt (analyze hashPrompt st p a).2 p a).1.cached = true := by
  have hkey : ∀ (v : ThreatResult) (s : CacheState),
      cacheGet (cacheSet s (generateKey a (hashPrompt p)) v)
        (generateKey a (hashPrompt p)) = some v := by
    intro v s
    simp [cacheGet, cacheSet, List.find?]
  unfold analyze
  cases hget : cacheGet st (generateKey a (hashPrompt p)) with
  | some v => simp [hget]
  | none => simp [hget, hkey]

/-- C4 counterexample: for the three-space prompt the response reports
promptLength 0 while the submitted prompt has length 3, so promptLength
does not always equal the character length of the submitted prompt. -/
theorem analyzeRequest_promptLength_cex :
    (analyzeRequest sampleHash [] [] emptyRateState 0 wsOnlyRequest).1.evidence.promptLength ≠
      some wsOnlyRequest.prompt.length := by
  decide

/-- C4 amended: on the normal path (validated prompt, no thrown error) the
evidence promptLength equals the exact character length of the submitted
prompt; on the empty-or-whitespace rejection path it is the constant 0;
and the catch-path evidence carries no promptLength at all. -/
theorem analyzeRequest_promptLength (hashPrompt : String → String)
    (policies : List SecurityPolicy) (cacheSt : CacheState) (rateSt : RateState)
    (now : ℕ) (request : AgentRequest) :
    ((jsTrim request.prompt).length ≠ 0 →
      (analyzeRequest hashPrompt policies cacheSt rateSt now request).1.evidence.promptLength =
        some request.prompt.length) ∧
    ((jsTrim request.prompt).length = 0 →
      (analyzeRequest hashPrompt policies cacheSt rateSt now request).1.evidence.promptLength =
        some 0) ∧
    (∀ e : String,
      (runGuarded (Except.error e) cacheSt rateSt).1.evidence.promptLength = none) := by
  refine ⟨?_, ?_, fun e => rfl⟩
  · intro h
    have hne : ¬(request.prompt = "" ∨ (jsTrim request.prompt).length = 0) := by
      rintro (he | ht)
      · exact h (by rw [he]; rfl)
      · exact h ht
    unfold analyzeRequest
    rw [if_neg hne]
    simp [runGuarded, analyzeCore]
  · intro h
    unfold analyzeRequest
    rw [if_pos (Or.inr h)]
    rfl

/-- Witness for C4 amended: a 5-character prompt reports promptLength 5, the
whitespace-only prompt reports 0, and a caught error reports none. -/
theorem analyzeRequest_promptLength_witness :
    (analyzeRequest sampleHash [] [] emptyRateState 0 helloRequest).1.evidence.promptLength =
      some helloRequest.prompt.length ∧
    (analyzeRequest sampleHash [] [] emptyRateState 0 wsOnlyRequest).1.evidence.promptLength =
      some 0 ∧
    (runGuarded (Except.error "boom") [] emptyRateState).1.evidence.promptLength = none :=
  ⟨(analyzeRequest_promptLength sampleHash [] [] emptyRateState 0 helloRequest).1 (by decide),
   (analyzeRequest_promptLength sampleHash [] [] emptyRateState 0 wsOnlyRequest).2.1 (by decide),
   (analyzeRequest_promptLength sampleHash [] [] emptyRateState 0 wsOnlyRequest).2.2 "boom"⟩

/-- The matched flag of one policy evaluation is exactly the conjunction of
its conditions. -/
theorem evaluatePolicy_matched (p : SecurityPolicy) (ctx : PolicyContext) :
    (evaluatePolicy p ctx).matched = policyMatches p ctx := by
  unfold evaluatePolicy
  split <;> simp_all

/-- A policy evaluation result carries the policy it was evaluated on. -/
theorem evaluatePolicy_policy (p : SecurityPolicy) (ctx : PolicyContext) :
    (evaluatePolicy p ctx).policy = p := by
  unfold evaluatePolicy
  split <;> rfl

/-- Collecting the matched evaluation results equals evaluating exactly the
matching policies. -/
theorem matchedResults_eq (policies : List SecurityPolicy) (ctx : PolicyContext) :
    (policies.map (fun p => evaluatePolicy p ctx)).filter (fun r => r.matched) =
      (policies.filter (fun p => policyMatches p ctx)).map
        (fun p => evaluatePolicy p ctx) := by
  rw [List.filter_map]
  congr 1
  apply List.filter_congr
  intro x _
  simp [Function.comp, evaluatePolicy_matched]

/-- C3: over a validated policy source, evaluatePolicies returns results
for exactly the enabled policies whose conditions all hold, and the
returned list is sorted descending by the priority field (numerically
highest priority first), although evaluation iterated the loaded policies
in ascending-priority order. -/
theorem evaluatePolicies_matched_desc (ps : List SecurityPolicy)
    (ctx : PolicyContext) (hv : validatePolicies ps = true) :
    List.Pairwise
      (fun a b : PolicyEvaluationResult => b.policy.priority ≤ a.policy.priority)
      (evaluatePolicies (loadPolicies (PolicySource.policiesArr ps)) ctx) ∧
    ((evaluatePolicies (loadPolicies (PolicySource.policiesArr ps)) ctx).map
        (fun r => r.policy)).Perm
      (ps.filter (fun p => p.enabled && policyMatches p ctx)) := by
  constructor
  · unfold evaluatePolicies
    refine List.Pairwise.imp ?_ (List.sorted_mergeSort ?_ ?_ _)
    · intro a b hab
      exact of_decide_eq_true hab
    · intro a b c hab hbc
      simp only [decide_eq_true_eq] at hab hbc ⊢
      exact le_trans hbc hab
    · intro a b
      simp only [Bool.or_eq_true, decide_eq_true_eq]
      exact le_total b.policy.priority a.policy.priority
  · have hload : loadPolicies (PolicySource.policiesArr ps) =
        (ps.filter (fun policy => policy.enabled)).mergeSort
          (fun a b => a.priority ≤ b.priority) := by
      simp [loadPolicies, hv]
    unfold evaluatePolicies
    refine List.Perm.trans (List.Perm.map _ (List.mergeSort_perm _ _)) ?_
    rw [matchedResults_eq, List.map_map]
    have hmapid :
        List.map ((fun r : PolicyEvaluationResult => r.policy) ∘
            fun p => evaluatePolicy p ctx)
          ((loadPolicies (PolicySource.policiesArr ps)).filter
            (fun p => policyMatches p ctx)) =
        (loadPolicies (PolicySource.policiesArr ps)).filter
          (fun p => policyMatches p ctx) := by
      refine Eq.trans (List.map_congr_left ?_) (List.map_id _)
      intro a _
      exact evaluatePolicy_policy a ctx
    rw [hmapid, hload]
    refine List.Perm.trans (List.Perm.filter _ (List.mergeSort_perm _ _)) ?_
    rw [List.filter_filter]
    have hpred : (fun a : SecurityPolicy => policyMatches a ctx && a.enabled) =
        fun p : SecurityPolicy => p.enabled && policyMatches p ctx := by
      funext a
      exact Bool.and_comm _ _
    rw [hpred]

/-- Witness for C3: two enabled always-matching policies with priorities 1
and 2 are both returned, descending by priority. -/
theorem evaluatePolicies_matched_desc_witness :
    validatePolicies [samplePolicyA, samplePolicyB] = true ∧
    List.Pairwise
      (fun a b : PolicyEvaluationResult => b.policy.priority ≤ a.policy.priority)
      (evaluatePolicies
        (loadPolicies (PolicySource.policiesArr [samplePolicyA, samplePolicyB]))
        sampleContext) ∧
    ((evaluatePolicies
        (loadPolicies (PolicySource.policiesArr [samplePolicyA, samplePolicyB]))
        sampleContext).map (fun r => r.policy)).Perm
      ([samplePolicyA, samplePolicyB].filter
        (fun p => p.enabled && policyMatches p sampleContext)) :=
  ⟨by decide,
   (evaluatePolicies_matched_desc [samplePolicyA, samplePolicyB] sampleContext
      (by decide)).1,
   (evaluatePolicies_matched_desc [samplePolicyA, samplePolicyB] sampleContext
      (by decide)).2⟩
